import Mathlib

set_option linter.unusedVariables false

/- Shallow embedding of src/experiments/maxdiv_coastdat.cc: the CoastDat
data-assembly pipeline (region validation, extent measuring, block reading,
average pooling with lat/lon transposition) and the driver entry points.
Machine integers are modelled as Nat (unsigned int / size_t; all quantities
involved stay far below any overflow boundary) and Int (C int status codes),
sample values as rationals (the float arithmetic of the source is abstracted
to exact arithmetic), and the external collaborators — libnetcdf, the maxdiv
analysis routine, the context-window sizing function, and the string helpers
from utils.h, none of which are under src/ — as oracle parameters modelled
from the spec. -/

def COASTDAT_PATH : String := "/home/barz/anomaly-detection/CoastDat-raw/"

def COASTDAT_FIRST_YEAR : Nat := 1958

def COASTDAT_NUM_YEARS : Nat := 50

/-- The `coastdat_params_t` structure (lines 22-31 of maxdiv_coastdat.cc).
The first field is named `variables` in the source; that word is a reserved
token in Lean, so it is called `varList` here. -/
structure coastdat_params_t where
  varList : String
  firstYear : Nat
  lastYear : Nat
  firstLat : Nat
  lastLat : Nat
  firstLon : Nat
  lastLon : Nat
  spatialPoolingSize : Nat
deriving Repr, DecidableEq

/-- Modelled from the spec: `strtolower` from utils.h (not under src/)
lower-cases the variable list before splitting. -/
def strtolower (s : String) : String := String.mk (s.data.map Char.toLower)

/-- Splitting a character list at the delimiter characters. -/
def splitChars (delims : List Char) : List Char → List Char → List (List Char)
  | [], acc => [acc.reverse]
  | c :: cs, acc =>
    if delims.contains c then acc.reverse :: splitChars delims cs []
    else splitChars delims cs (c :: acc)

/-- Modelled from the spec: `splitString` from utils.h (not under src/) splits
on the given delimiter characters with empty tokens dropped ("trimming"); the
C function returns the number of tokens, we return the token list itself. -/
def splitString (s : String) (delims : List Char) : List String :=
  ((splitChars delims s.data []).map String.mk).filter (fun t => t != "")

/-- Variable-list parsing (line 83): split the lower-cased list on ",; ". -/
def varsOf (p : coastdat_params_t) : List String :=
  splitString (strtolower p.varList) [',', ';', ' ']

/-- Year normalization (lines 85-86): a year at or above the dataset's first
calendar year is treated as absolute and converted to a 1-based relative
index; anything below is passed through unchanged. -/
def normalizeYear (y : Nat) : Nat :=
  if COASTDAT_FIRST_YEAR ≤ y then y - COASTDAT_FIRST_YEAR + 1 else y

/-- Ceiling division on Nat; for b ≥ 1 this is ceil(a / b) in exact
arithmetic (the source's float division is exact at these magnitudes). -/
def cdiv (a b : Nat) : Nat := (a + b - 1) / b

/-- Line 94. As written in the source, `ceil` wraps only the numerator
`lastLon - firstLon + 1`, so the subsequent float division is truncated by
the assignment to the integer field: floor division. -/
def shape_x (p : coastdat_params_t) : Nat :=
  (p.lastLon - p.firstLon + 1) / p.spatialPoolingSize

/-- Line 95: `ceil` of the latitude extent divided by the pooling size. -/
def shape_y (p : coastdat_params_t) : Nat :=
  cdiv (p.lastLat - p.firstLat + 1) p.spatialPoolingSize

/-- `%03u`: decimal digits, zero-padded on the left to at least width 3. -/
def fmt3 (n : Nat) : String :=
  let s := toString n
  if s.length < 3 then String.mk (List.replicate (3 - s.length) '0') ++ s else s

/-- The sprintf of lines 101 and 133. Note that the year inserted is the
loop's RELATIVE year index (1-based), not an absolute calendar year. -/
def coastdatFilename (v : String) (year : Nat) : String :=
  COASTDAT_PATH ++ v ++ "/coastDat-1_Waves_" ++ v ++ "_" ++ fmt3 year ++ ".nc"

/-- The path format claim C4 asserts: built from the variable name and the
ABSOLUTE calendar year (the relative year converted back to absolute). -/
def claimFilename (v : String) (relYear : Nat) : String :=
  COASTDAT_PATH ++ v ++ "/coastDat-1_Waves_" ++ v ++ "_" ++
    fmt3 (COASTDAT_FIRST_YEAR + relYear - 1) ++ ".nc"

/-- `MaxDiv::ReflessIndexVector` (DataTensor.h, not under src/): the five
tensor extents (t, x, y, z, d). -/
structure ReflessIndexVector where
  t : Nat
  x : Nat
  y : Nat
  z : Nat
  d : Nat
deriving Repr, DecidableEq

def zeroShape : ReflessIndexVector := ⟨0, 0, 0, 0, 0⟩

/-- Modelled from the spec: the libnetcdf storage backend (external
collaborator). One storage unit per filename (one open/close per call, no
caching), each operation reporting a status (0 = NC_NOERR) and, where
applicable, a result. `sample f t la lo` is the raw sample of unit `f` at
time step t, absolute latitude row la, absolute longitude column lo. -/
structure NCBackend where
  openStatus : String → Int
  inqVarStatus : String → String → Int
  dimIdStatus : String → Int
  dimLenStatus : String → Int
  dimLen : String → Nat
  readStatus : String → Int
  sample : String → Nat → Nat → Nat → ℚ

/-- Every backend operation succeeds (status 0 = NC_NOERR). -/
def backendOK (b : NCBackend) : Prop :=
  (∀ f, b.openStatus f = 0) ∧ (∀ f v, b.inqVarStatus f v = 0) ∧
  (∀ f, b.dimIdStatus f = 0) ∧ (∀ f, b.dimLenStatus f = 0) ∧
  (∀ f, b.readStatus f = 0)

/-- The open / variable-handle / time-dimension queries shared by both loops
(lines 100-114 and 132-147): the first failing status aborts, otherwise the
length of the "time" dimension is returned. -/
def ncQueryLen (b : NCBackend) (f v : String) : Except Int Nat :=
  if b.openStatus f ≠ 0 then .error (b.openStatus f)
  else if b.inqVarStatus f v ≠ 0 then .error (b.inqVarStatus f v)
  else if b.dimIdStatus f ≠ 0 then .error (b.dimIdStatus f)
  else if b.dimLenStatus f ≠ 0 then .error (b.dimLenStatus f)
  else .ok (b.dimLen f)

/-- The queries of the streaming loop followed by the nc_get_vara block read
(lines 149-156). -/
def ncReadLen (b : NCBackend) (f v : String) : Except Int Nat :=
  match ncQueryLen b f v with
  | .error e => .error e
  | .ok n => if b.readStatus f ≠ 0 then .error (b.readStatus f) else .ok n

/-- The extent-measuring loop (lines 98-117): for each selected year, open
the file of the FIRST configured variable only, query the time dimension and
accumulate its length; the first failure aborts with the backend's status.
The first component lists the files whose open was attempted. -/
def measurePhase (b : NCBackend) (v : String) : List Nat → List String × Except Int Nat
  | [] => ([], .ok 0)
  | y :: ys =>
    match ncQueryLen b (coastdatFilename v y) v with
    | .error e => ([coastdatFilename v y], .error e)
    | .ok n =>
      match measurePhase b v ys with
      | (fs, .error e) => (coastdatFilename v y :: fs, .error e)
      | (fs, .ok total) => (coastdatFilename v y :: fs, .ok (n + total))

/-- One element store into the destination tensor: (t, x, y, z, d), value. -/
abbrev TensorWrite := Nat × Nat × Nat × Nat × Nat × ℚ

/-- The latitude extent of the requested block, dataLength[1] (line 126). -/
def latLenOf (p : coastdat_params_t) : Nat := p.lastLat - p.firstLat + 1

/-- The longitude extent of the requested block, dataLength[2] (line 126). -/
def lonLenOf (p : coastdat_params_t) : Nat := p.lastLon - p.firstLon + 1

/-- The raw block in its flat layout: `buffer.raw()` of a DataTensor resized
to {dim_len, latLen, lonLen, 1, 1}. DataTensor.h is not under src/; the
layout is modelled from the spec: RawBlock has native axis order
(time, lat, lon), contiguous, time outermost. -/
def blockRaw (latLen lonLen : Nat) (s : Nat → Nat → Nat → ℚ) (idx : Nat) : ℚ :=
  s (idx / (latLen * lonLen)) (idx % (latLen * lonLen) / lonLen) (idx % lonLen)

/-- The Eigen matrix map of line 163: base pointer `buffer.raw()` — note,
with no per-time-step offset — rows = buffer.width() = latLen, cols =
buffer.height() = lonLen, row stride = buffer.height() = lonLen, column
stride 1. Element (r, c) therefore reads flat index r·lonLen + c. -/
def timestepAt (latLen lonLen : Nat) (s : Nat → Nat → Nat → ℚ) (r c : Nat) : ℚ :=
  blockRaw latLen lonLen s (r * lonLen + c)

/-- Sum of an rn × cn window of `m` anchored at (r0, c0). -/
def windowSum (m : Nat → Nat → ℚ) (r0 c0 rn cn : Nat) : ℚ :=
  ((List.range rn).map (fun i =>
    ((List.range cn).map (fun j => m (r0 + i) (c0 + j))).sum)).sum

/-- Eigen's `.block(...).mean()`: unweighted arithmetic mean of the window. -/
def windowMean (m : Nat → Nat → ℚ) (r0 c0 rn cn : Nat) : ℚ :=
  windowSum m r0 c0 rn cn / ((rn * cn : Nat) : ℚ)

/-- The value stored by lines 169-174 for destination cell (t, x, y): the
mean of the window anchored at row y·P, column x·P, of size
min(P, latLen − y·P) × min(P, lonLen − x·P), read through `timestepAt` —
which, the map base lacking the time offset, yields time step 0 whatever
`t` is. -/
def pooledValue (p : coastdat_params_t) (latLen lonLen : Nat)
    (s : Nat → Nat → Nat → ℚ) (t x y : Nat) : ℚ :=
  windowMean (timestepAt latLen lonLen s)
    (y * p.spatialPoolingSize) (x * p.spatialPoolingSize)
    (min p.spatialPoolingSize (latLen - y * p.spatialPoolingSize))
    (min p.spatialPoolingSize (lonLen - x * p.spatialPoolingSize))

/-- The value claim C2 states for destination cell (t, x, y): the mean over
the same spatial window of the samples of time step t itself. -/
def pooledValueClaim (p : coastdat_params_t) (latLen lonLen : Nat)
    (s : Nat → Nat → Nat → ℚ) (t x y : Nat) : ℚ :=
  windowMean (fun r c => s t r c)
    (y * p.spatialPoolingSize) (x * p.spatialPoolingSize)
    (min p.spatialPoolingSize (latLen - y * p.spatialPoolingSize))
    (min p.spatialPoolingSize (lonLen - x * p.spatialPoolingSize))

/-- The block handed to pooling by nc_get_vara (lines 125-126, 152-155):
start {0, firstLat, firstLon}, counts {dim_len, latLen, lonLen}. -/
def blockSample (b : NCBackend) (f : String) (p : coastdat_params_t) :
    Nat → Nat → Nat → ℚ :=
  fun t la lo => b.sample f t (p.firstLat + la) (p.firstLon + lo)

/-- The pooling loops of lines 161-176 for one (year, variable) block: for
each t < e, x < sx, y < sy, store `pooledValue` at tensor coordinate
(timeOffset + t, x, y, 0, d). -/
def poolWrites (p : coastdat_params_t) (latLen lonLen sx sy e off d : Nat)
    (s : Nat → Nat → Nat → ℚ) : List TensorWrite :=
  (List.range e).flatMap (fun t =>
    (List.range sx).flatMap (fun x =>
      (List.range sy).map (fun y =>
        (off + t, x, y, 0, d, pooledValue p latLen lonLen s t x y))))

/-- The inner (per-variable) streaming loop of lines 130-177: iterate the
variables in list order at channel index d, read each block, pool it into
writes based at `off`; the year's `dim_len` after the loop is the length
reported for the LAST variable (threaded through as the first component of
the `ok` result; the incoming value models the stale `dim_len` before the
first iteration). The first result component lists attempted opens. -/
def streamYearVars (p : coastdat_params_t) (b : NCBackend) (sx sy year off : Nat) :
    List String → Nat → Nat → List String × Except Int (Nat × List TensorWrite)
  | [], _, lastLen => ([], .ok (lastLen, []))
  | v :: vs, d, _ =>
    match ncReadLen b (coastdatFilename v year) v with
    | .error e => ([coastdatFilename v year], .error e)
    | .ok n =>
      match streamYearVars p b sx sy year off vs (d + 1) n with
      | (fs, .error e) => (coastdatFilename v year :: fs, .error e)
      | (fs, .ok (L, W)) =>
        (coastdatFilename v year :: fs,
         .ok (L, poolWrites p (latLenOf p) (lonLenOf p) sx sy n off d
                (blockSample b (coastdatFilename v year) p) ++ W))

/-- The outer (per-year) streaming loop of lines 128-179: after all variables
of a year, advance the running time offset by that year's `dim_len`
(line 178) — once per year, after the variable loop. -/
def streamYears (p : coastdat_params_t) (b : NCBackend) (sx sy : Nat) :
    List Nat → Nat → List String × Except Int (List TensorWrite)
  | [], _ => ([], .ok [])
  | y :: ys, off =>
    match streamYearVars p b sx sy y off (varsOf p) 0 0 with
    | (fs, .error e) => (fs, .error e)
    | (fs, .ok (L, W)) =>
      match streamYears p b sx sy ys (off + L) with
      | (fs2, .error e) => (fs ++ fs2, .error e)
      | (fs2, .ok W2) => (fs ++ fs2, .ok (W ++ W2))

/-- The selected years after normalization: firstYear..lastYear inclusive. -/
def yearsOf (p : coastdat_params_t) : List Nat :=
  List.range' (normalizeYear p.firstYear)
    (normalizeYear p.lastYear - normalizeYear p.firstYear + 1)

/-- The parameter checks of lines 80-88 (each triggers `return 1` before any
I/O): pooling size below 1, empty variable list, or — after year
normalization — firstYear < 1, lastYear < 1, lastYear < firstYear, or a year
span exceeding the dataset's year count. (The fourth year condition is only
reached when lastYear ≥ firstYear, so Nat truncated subtraction agrees with
the unsigned arithmetic of the source.) -/
def paramsInvalid (p : coastdat_params_t) : Bool :=
  decide (p.spatialPoolingSize < 1) ||
  decide ((varsOf p).length < 1) ||
  decide (normalizeYear p.firstYear < 1) ||
  decide (normalizeYear p.lastYear < 1) ||
  decide (normalizeYear p.lastYear < normalizeYear p.firstYear) ||
  decide (normalizeYear p.lastYear - normalizeYear p.firstYear + 1 > COASTDAT_NUM_YEARS)

/-- Result of `read_coastdat`: the returned status, the shape the destination
tensor was resized to (zero = untouched), the element stores made into it on
the success path, and the files whose open was attempted. -/
structure ReadOutcome where
  status : Int
  shape : ReflessIndexVector
  writes : List TensorWrite
  opened : List String
deriving Repr, DecidableEq

/-- `read_coastdat` (lines 74-183): parameter validation, extent measuring
(first variable only), tensor shape computation (lines 92-97: x from the
longitude extent, y from the latitude extent, z = 1, d = number of
variables), then the year × variable streaming/pooling loops. A NULL
`data_params` is modelled as `none`. On a failure the status is returned as
is; the writes made before a streaming failure are not retained in the
model (the callers never consume them). -/
def read_coastdat (data_params : Option coastdat_params_t) (b : NCBackend) : ReadOutcome :=
  match data_params with
  | none => ⟨1, zeroShape, [], []⟩
  | some p =>
    if paramsInvalid p then ⟨1, zeroShape, [], []⟩
    else
      match measurePhase b ((varsOf p).headD "") (yearsOf p) with
      | (fs1, .error e) => ⟨e, zeroShape, [], fs1⟩
      | (fs1, .ok total) =>
        match streamYears p b (shape_x p) (shape_y p) (yearsOf p) 0 with
        | (fs2, .error e) =>
          ⟨e, ⟨total, shape_x p, shape_y p, 1, (varsOf p).length⟩, [], fs1 ++ fs2⟩
        | (fs2, .ok W) =>
          ⟨0, ⟨total, shape_x p, shape_y p, 1, (varsOf p).length⟩, W, fs1 ++ fs2⟩

/-- Result of a driver entry point: its return value, whether the external
routine (analysis resp. sizing) was invoked, and the opens attempted. -/
structure DriverOutcome where
  ret : Int
  invoked : Bool
  opened : List String
deriving Repr, DecidableEq

/-- `maxdiv_coastdat` (lines 186-206). `paramsNull` models `params == NULL`.
Modelled from the spec: the external analysis routine returns 0 on success,
nonzero otherwise; it is abstracted by its return code `algoRet`. As in the
source, the call's return value is discarded (line 199) and the function
returns 0 after the analysis (line 205). -/
def maxdiv_coastdat (paramsNull : Bool) (data_params : Option coastdat_params_t)
    (b : NCBackend) (algoRet : Int) : DriverOutcome :=
  if paramsNull then ⟨1, false, []⟩
  else
    let r := read_coastdat data_params b
    if r.status ≠ 0 then ⟨r.status, false, r.opened⟩
    else ⟨0, true, r.opened⟩

/-- `maxdiv_coastdat_context_window_size` (lines 209-216). Modelled from the
spec: the external sizing function is abstracted by its return value
`sizeRet`. A failing read makes the function return 0 (line 213) without
invoking the sizing function. -/
def maxdiv_coastdat_context_window_size (data_params : Option coastdat_params_t)
    (b : NCBackend) (sizeRet : Int) : DriverOutcome :=
  let r := read_coastdat data_params b
  if r.status ≠ 0 then ⟨0, false, r.opened⟩
  else ⟨sizeRet, true, r.opened⟩

/-- The fixed preset written by `maxdiv_coastdat_default_params`
(lines 224-231). -/
def coastdatDefault : coastdat_params_t :=
  { varList := "ff,hs,mp", firstYear := 1, lastYear := 50, firstLat := 53,
    lastLat := 100, firstLon := 30, lastLon := 98, spatialPoolingSize := 4 }

/-- `maxdiv_coastdat_default_params` (lines 219-232): a NULL pointer is left
alone (modelled as `none ↦ none`); otherwise the pointed-to structure is
overwritten with the preset. -/
def maxdiv_coastdat_default_params :
    Option coastdat_params_t → Option coastdat_params_t
  | none => none
  | some _ => some coastdatDefault

/-- The per-year time extent the pipeline measures: the length reported for
the file of the FIRST configured variable. -/
def ext0 (p : coastdat_params_t) (b : NCBackend) (y : Nat) : Nat :=
  b.dimLen (coastdatFilename ((varsOf p).headD "") y)

/-- A minimal region: one variable, one year, one grid cell, no pooling. -/
def pOne : coastdat_params_t :=
  { varList := "ff", firstYear := 1, lastYear := 1, firstLat := 0, lastLat := 0,
    firstLon := 0, lastLon := 0, spatialPoolingSize := 1 }

/-- Two variables over two years on the single-cell grid. -/
def pTwo : coastdat_params_t :=
  { varList := "ff,hs", firstYear := 1, lastYear := 2, firstLat := 0, lastLat := 0,
    firstLon := 0, lastLon := 0, spatialPoolingSize := 1 }

/-- A backend on which every operation succeeds, every unit reports one time
step and every sample is 0. -/
def bOK : NCBackend :=
  { openStatus := fun _ => 0, inqVarStatus := fun _ _ => 0,
    dimIdStatus := fun _ => 0, dimLenStatus := fun _ => 0,
    dimLen := fun _ => 1, readStatus := fun _ => 0,
    sample := fun _ _ _ _ => 0 }

/-- Two time steps per unit; each sample equals its time index. -/
def bTwo : NCBackend :=
  { bOK with dimLen := fun _ => 2, sample := fun _ t _ _ => (t : ℚ) }

/-- nc_open fails with status -5 everywhere. -/
def bFail : NCBackend := { bOK with openStatus := fun _ => -5 }

/-- The validation flag is raised exactly under the conditions of
lines 80-88. -/
theorem paramsInvalid_true_iff (p : coastdat_params_t) :
    paramsInvalid p = true ↔
      (p.spatialPoolingSize < 1 ∨ varsOf p = [] ∨
       normalizeYear p.firstYear < 1 ∨ normalizeYear p.lastYear < 1 ∨
       normalizeYear p.lastYear < normalizeYear p.firstYear ∨
       normalizeYear p.lastYear - normalizeYear p.firstYear + 1 > COASTDAT_NUM_YEARS) := by
  simp [paramsInvalid, Nat.lt_one_iff, List.length_eq_zero, or_assoc]

/-- On a fully successful backend the shared query sequence reports the
length of the time dimension. -/
theorem ncQueryLen_ok {b : NCBackend} (hb : backendOK b) (f v : String) :
    ncQueryLen b f v = .ok (b.dimLen f) := by
  simp [ncQueryLen, hb.1 f, hb.2.1 f v, hb.2.2.1 f, hb.2.2.2.1 f]

/-- On a fully successful backend the query-and-read sequence reports the
length of the time dimension. -/
theorem ncReadLen_ok {b : NCBackend} (hb : backendOK b) (f v : String) :
    ncReadLen b f v = .ok (b.dimLen f) := by
  simp [ncReadLen, ncQueryLen_ok hb, hb.2.2.2.2 f]

/-- The measuring loop opens at least one file as soon as there is a year to
measure. -/
theorem measurePhase_fst_ne_nil (b : NCBackend) (v : String) (y : Nat) (ys : List Nat) :
    (measurePhase b v (y :: ys)).1 ≠ [] := by
  simp only [measurePhase]
  cases ncQueryLen b (coastdatFilename v y) v with
  | error e => simp
  | ok n =>
    rcases measurePhase b v ys with ⟨fs, r⟩
    cases r <;> simp

/-- Every file the measuring loop touches is the first variable's file of
one of the selected years. -/
theorem measurePhase_opened (b : NCBackend) (v : String) :
    ∀ ys, ∀ f ∈ (measurePhase b v ys).1, ∃ y ∈ ys, f = coastdatFilename v y := by
  intro ys
  induction ys with
  | nil => simp [measurePhase]
  | cons y ys ih =>
    intro f hf
    simp only [measurePhase] at hf
    cases hq : ncQueryLen b (coastdatFilename v y) v with
    | error e =>
      rw [hq] at hf
      simp at hf
      exact ⟨y, by simp, hf⟩
    | ok n =>
      rw [hq] at hf
      rcases hm : measurePhase b v ys with ⟨fs, r⟩
      rw [hm] at hf
      have hfs : ∀ g ∈ fs, ∃ y2 ∈ ys, g = coastdatFilename v y2 := by
        intro g hg
        exact ih g (by rw [hm]; exact hg)
      cases r with
      | error e =>
        rcases (by simpa using hf : f = coastdatFilename v y ∨ f ∈ fs) with h | h
        · exact ⟨y, by simp, h⟩
        · obtain ⟨y2, hy2, rfl⟩ := hfs f h
          exact ⟨y2, by simp [hy2], rfl⟩
      | ok total =>
        rcases (by simpa using hf : f = coastdatFilename v y ∨ f ∈ fs) with h | h
        · exact ⟨y, by simp, h⟩
        · obtain ⟨y2, hy2, rfl⟩ := hfs f h
          exact ⟨y2, by simp [hy2], rfl⟩

/-- On a fully successful backend the measuring loop opens exactly the first
variable's file of each selected year and totals the reported lengths. -/
theorem measurePhase_ok {b : NCBackend} (hb : backendOK b) (v : String) :
    ∀ ys, measurePhase b v ys =
      (ys.map (coastdatFilename v),
       .ok ((ys.map (fun y => b.dimLen (coastdatFilename v y))).sum)) := by
  intro ys
  induction ys with
  | nil => simp [measurePhase]
  | cons y ys ih => simp [measurePhase, ncQueryLen_ok hb, ih]

/-- Every write produced for one block lands at a time coordinate
`off + tau` with `tau` below the block's time length. -/
theorem poolWrites_fst (p : coastdat_params_t) (latLen lonLen sx sy e off d : Nat)
    (s : Nat → Nat → Nat → ℚ) :
    ∀ w ∈ poolWrites p latLen lonLen sx sy e off d s,
      ∃ tau, tau < e ∧ w.1 = off + tau := by
  intro w hw
  simp only [poolWrites, List.mem_flatMap, List.mem_map, List.mem_range] at hw
  obtain ⟨t, ht, x, hx, y, hy, rfl⟩ := hw
  exact ⟨t, ht, rfl⟩

/-- The valid-parameters flag unpacked into its six conditions. -/
theorem paramsValid_parts {p : coastdat_params_t} (hv : paramsInvalid p = false) :
    ¬ p.spatialPoolingSize < 1 ∧ varsOf p ≠ [] ∧
    1 ≤ normalizeYear p.firstYear ∧ 1 ≤ normalizeYear p.lastYear ∧
    normalizeYear p.firstYear ≤ normalizeYear p.lastYear ∧
    normalizeYear p.lastYear - normalizeYear p.firstYear + 1 ≤ COASTDAT_NUM_YEARS := by
  have h : ¬ (paramsInvalid p = true) := by simp [hv]
  rw [paramsInvalid_true_iff] at h
  simp only [not_or] at h
  obtain ⟨h1, h2, h3, h4, h5, h6⟩ := h
  exact ⟨h1, h2, by omega, by omega, by omega, by omega⟩

/-- The head of a nonempty list with a default is a member. -/
theorem headD_mem {l : List String} (h : l ≠ []) (d : String) : l.headD d ∈ l := by
  cases l with
  | nil => exact absurd rfl h
  | cons a as => simp

/-- On a fully successful backend whose per-year extent is uniformly E over
the given variables, the per-variable streaming loop succeeds, opens each
variable's file of the year in list order, leaves dim_len = E (unless no
variable is configured), and every write lands at a time coordinate
`off + tau` with `tau < E`. -/
theorem streamYearVars_ok (p : coastdat_params_t) {b : NCBackend} (hb : backendOK b)
    (sx sy year off E : Nat) :
    ∀ (vs : List String), (∀ v ∈ vs, b.dimLen (coastdatFilename v year) = E) →
    ∀ d L0, ∃ W,
      streamYearVars p b sx sy year off vs d L0 =
        (vs.map (fun v => coastdatFilename v year),
         .ok ((if vs = [] then L0 else E), W)) ∧
      ∀ w ∈ W, ∃ tau, tau < E ∧ w.1 = off + tau := by
  intro vs
  induction vs with
  | nil => exact fun _ d L0 => ⟨[], by simp [streamYearVars], by simp⟩
  | cons v vs ih =>
    intro hE d L0
    have hvE : b.dimLen (coastdatFilename v year) = E := hE v (by simp)
    obtain ⟨W, hW, hWt⟩ :=
      ih (fun u hu => hE u (by simp [hu])) (d + 1) (b.dimLen (coastdatFilename v year))
    have hL : (if vs = [] then b.dimLen (coastdatFilename v year) else E) = E := by
      split
      · exact hvE
      · rfl
    refine ⟨poolWrites p (latLenOf p) (lonLenOf p) sx sy (b.dimLen (coastdatFilename v year))
              off d (blockSample b (coastdatFilename v year) p) ++ W, ?_, ?_⟩
    · simp only [streamYearVars, ncReadLen_ok hb, hW, hL]
      simp
    · intro w hw
      rcases List.mem_append.1 hw with h | h
      · obtain ⟨tau, h1, h2⟩ := poolWrites_fst _ _ _ _ _ _ _ _ _ w h
        exact ⟨tau, hvE ▸ h1, h2⟩
      · exact hWt w h

/-- Every file the per-variable streaming loop touches is one of the year's
variable files. -/
theorem streamYearVars_opened (p : coastdat_params_t) (b : NCBackend) (sx sy year off : Nat) :
    ∀ vs d L0, ∀ f ∈ (streamYearVars p b sx sy year off vs d L0).1,
      ∃ v ∈ vs, f = coastdatFilename v year := by
  intro vs
  induction vs with
  | nil => intro d L0 f hf; simp [streamYearVars] at hf
  | cons v vs ih =>
    intro d L0 f hf
    cases hq : ncReadLen b (coastdatFilename v year) v with
    | error e =>
      simp only [streamYearVars, hq] at hf
      simp at hf
      exact ⟨v, by simp, hf⟩
    | ok n =>
      rcases hs : streamYearVars p b sx sy year off vs (d + 1) n with ⟨fs, r⟩
      have hfs : ∀ g ∈ fs, ∃ u ∈ vs, g = coastdatFilename u year := by
        intro g hg
        exact ih (d + 1) n g (by rw [hs]; exact hg)
      cases r with
      | error e =>
        simp only [streamYearVars, hq, hs] at hf
        rcases (by simpa using hf : f = coastdatFilename v year ∨ f ∈ fs) with h | h
        · exact ⟨v, by simp, h⟩
        · obtain ⟨u, hu, rfl⟩ := hfs f h
          exact ⟨u, by simp [hu], rfl⟩
      | ok LW =>
        rcases LW with ⟨L, W⟩
        simp only [streamYearVars, hq, hs] at hf
        rcases (by simpa using hf : f = coastdatFilename v year ∨ f ∈ fs) with h | h
        · exact ⟨v, by simp, h⟩
        · obtain ⟨u, hu, rfl⟩ := hfs f h
          exact ⟨u, by simp [hu], rfl⟩

/-- On a fully successful backend whose variables all report the
first-variable extent, the year loop succeeds and every write of the k-th
year (any variable) lands at `off` plus the summed extents of the earlier
years plus a local time step below that year's extent. -/
theorem streamYears_ok (p : coastdat_params_t) {b : NCBackend} (hb : backendOK b)
    (sx sy : Nat) (hvars : varsOf p ≠ [])
    (hE : ∀ v ∈ varsOf p, ∀ y, b.dimLen (coastdatFilename v y) = ext0 p b y) :
    ∀ ys off, ∃ fs W,
      streamYears p b sx sy ys off = (fs, .ok W) ∧
      ∀ w ∈ W, ∃ k tau, k < ys.length ∧ tau < ext0 p b (ys.getD k 0) ∧
        w.1 = off + ((ys.take k).map (ext0 p b)).sum + tau := by
  intro ys
  induction ys with
  | nil => exact fun off => ⟨[], [], by simp [streamYears], by simp⟩
  | cons y ys ih =>
    intro off
    obtain ⟨W1, hW1, hW1t⟩ :=
      streamYearVars_ok p hb sx sy y off (ext0 p b y) (varsOf p)
        (fun v hv => hE v hv y) 0 0
    obtain ⟨fs2, W2, hW2, hW2t⟩ := ih (off + ext0 p b y)
    have hL : (if varsOf p = [] then 0 else ext0 p b y) = ext0 p b y := by
      simp [hvars]
    rw [hL] at hW1
    refine ⟨(varsOf p).map (fun v => coastdatFilename v y) ++ fs2, W1 ++ W2, ?_, ?_⟩
    · simp only [streamYears, hW1, hW2]
    · intro w hw
      rcases List.mem_append.1 hw with h | h
      · obtain ⟨tau, h1, h2⟩ := hW1t w h
        exact ⟨0, tau, by simp, by simpa using h1, by simpa using h2⟩
      · obtain ⟨k, tau, h1, h2, h3⟩ := hW2t w h
        refine ⟨k + 1, tau, by simpa using h1, by simpa using h2, ?_⟩
        simp only [List.take_succ_cons, List.map_cons, List.sum_cons]
        omega

/-- Every file the year loop touches is some selected variable's file of
some selected year. -/
theorem streamYears_opened (p : coastdat_params_t) (b : NCBackend) (sx sy : Nat) :
    ∀ ys off, ∀ f ∈ (streamYears p b sx sy ys off).1,
      ∃ y ∈ ys, ∃ v ∈ varsOf p, f = coastdatFilename v y := by
  intro ys
  induction ys with
  | nil => intro off f hf; simp [streamYears] at hf
  | cons y ys ih =>
    intro off f hf
    rcases h1 : streamYearVars p b sx sy y off (varsOf p) 0 0 with ⟨fs, r⟩
    have hfs : ∀ g ∈ fs, ∃ v ∈ varsOf p, g = coastdatFilename v y := by
      intro g hg
      exact streamYearVars_opened p b sx sy y off (varsOf p) 0 0 g (by rw [h1]; exact hg)
    cases r with
    | error e =>
      simp only [streamYears, h1] at hf
      obtain ⟨v, hv, rfl⟩ := hfs f (by simpa using hf)
      exact ⟨y, by simp, v, hv, rfl⟩
    | ok LW =>
      rcases LW with ⟨L, W⟩
      rcases h2 : streamYears p b sx sy ys (off + L) with ⟨fs2, r2⟩
      have hfs2 : ∀ g ∈ fs2, ∃ y2 ∈ ys, ∃ v ∈ varsOf p, g = coastdatFilename v y2 := by
        intro g hg
        exact ih (off + L) g (by rw [h2]; exact hg)
      cases r2 with
      | error e =>
        simp only [streamYears, h1, h2] at hf
        rcases List.mem_append.1 (by simpa using hf) with h | h
        · obtain ⟨v, hv, rfl⟩ := hfs f h
          exact ⟨y, by simp, v, hv, rfl⟩
        · obtain ⟨y2, hy2, v, hv, rfl⟩ := hfs2 f h
          exact ⟨y2, by simp [hy2], v, hv, rfl⟩
      | ok W2 =>
        simp only [streamYears, h1, h2] at hf
        rcases List.mem_append.1 (by simpa using hf) with h | h
        · obtain ⟨v, hv, rfl⟩ := hfs f h
          exact ⟨y, by simp, v, hv, rfl⟩
        · obtain ⟨y2, hy2, v, hv, rfl⟩ := hfs2 f h
          exact ⟨y2, by simp [hy2], v, hv, rfl⟩

/-- Claim C1: for every valid region the tensor shape is claimed to satisfy
x = ceil(lonExtent / poolingSize) and y = ceil(latExtent / poolingSize).
The code computes y that way, but for x the misplaced parenthesis on
line 94 truncates instead: at the default region (lonExtent 69, pooling 4)
the code yields x = 17 while the claimed ceiling is 18. -/
theorem C1_shape_x_truncates :
    shape_x coastdatDefault = 17 ∧
    cdiv (coastdatDefault.lastLon - coastdatDefault.firstLon + 1)
      coastdatDefault.spatialPoolingSize = 18 ∧
    shape_x coastdatDefault ≠
      cdiv (coastdatDefault.lastLon - coastdatDefault.firstLon + 1)
        coastdatDefault.spatialPoolingSize ∧
    shape_y coastdatDefault =
      cdiv (coastdatDefault.lastLat - coastdatDefault.firstLat + 1)
        coastdatDefault.spatialPoolingSize := by
  decide

/-- Claim C2: the value written for destination cell (x, y) at time step t is
claimed to be the mean of the raw-block window of time step t. The window,
its truncation and the lat-to-y / lon-to-x transposition are as claimed, but
the Eigen map of line 163 is based at `buffer.raw()` with no per-t offset, so
the code pools the window of time step 0 for every t: on a 1-cell grid with
two time steps whose samples are 0 and 1, the write at t = 1 stores 0 while
the claimed value is 1. -/
theorem C2_pooling_reads_first_timestep :
    (read_coastdat (some pOne) bTwo).writes =
      [(0, 0, 0, 0, 0, (0 : ℚ)), (1, 0, 0, 0, 0, (0 : ℚ))] ∧
    pooledValueClaim pOne (latLenOf pOne) (lonLenOf pOne)
      (blockSample bTwo (coastdatFilename "ff" 1) pOne) 1 0 0 = 1 ∧
    ((0 : ℚ) ≠ 1) := by
  refine ⟨?_, ?_, by norm_num⟩
  · simp [read_coastdat, measurePhase, streamYears, streamYearVars, poolWrites, pooledValue,
      windowMean, windowSum, timestepAt, blockRaw, blockSample, ncReadLen, ncQueryLen,
      yearsOf, varsOf, splitString, splitChars, strtolower, paramsInvalid, pOne, bTwo, bOK,
      normalizeYear, coastdatFilename, fmt3, shape_x, shape_y, latLenOf, lonLenOf, cdiv,
      COASTDAT_FIRST_YEAR, COASTDAT_NUM_YEARS, List.range_succ]
  · simp [pooledValueClaim, windowMean, windowSum, blockSample, bTwo, bOK, pOne,
      latLenOf, lonLenOf, List.range_succ]

/-- Claim C3 counterexample: on a fully successful backend the read succeeds,
the analysis routine is invoked and returns 5 — yet `maxdiv_coastdat`
returns 0, not 5: the return code is not propagated. -/
theorem C3_return_code_not_propagated :
    (read_coastdat (some pOne) bOK).status = 0 ∧
    (maxdiv_coastdat false (some pOne) bOK 5).invoked = true ∧
    (maxdiv_coastdat false (some pOne) bOK 5).ret = 0 ∧
    ((5 : Int) ≠ 0) := by
  refine ⟨by decide, by decide, by decide, by decide⟩

/-- Claim C3 as amended: when the read pipeline succeeds, `maxdiv_coastdat`
hands the tensor to the external algorithm but discards the algorithm's
return code and returns 0 unconditionally. -/
theorem C3_returns_zero_on_success (dp : Option coastdat_params_t) (b : NCBackend)
    (algoRet : Int) (h : (read_coastdat dp b).status = 0) :
    (maxdiv_coastdat false dp b algoRet).ret = 0 ∧
    (maxdiv_coastdat false dp b algoRet).invoked = true := by
  simp [maxdiv_coastdat, h]

/-- Witness for C3_returns_zero_on_success at the one-cell region and the
fully successful backend, with the algorithm returning 7. -/
theorem C3_returns_zero_on_success_witness :
    (read_coastdat (some pOne) bOK).status = 0 ∧
    (maxdiv_coastdat false (some pOne) bOK 7).ret = 0 ∧
    (maxdiv_coastdat false (some pOne) bOK 7).invoked = true := by
  have h : (read_coastdat (some pOne) bOK).status = 0 := by decide
  exact ⟨h, (C3_returns_zero_on_success (some pOne) bOK 7 h).1,
    (C3_returns_zero_on_success (some pOne) bOK 7 h).2⟩

/-- Claim C4 counterexample: the claim says the storage path embeds the
ABSOLUTE calendar year. For variable "ff" and relative year 3 the code
builds the path with "003" (the relative index), not with "1960". -/
theorem C4_path_uses_relative_year :
    coastdatFilename "ff" 3 =
      "/home/barz/anomaly-detection/CoastDat-raw/ff/coastDat-1_Waves_ff_003.nc" ∧
    claimFilename "ff" 3 =
      "/home/barz/anomaly-detection/CoastDat-raw/ff/coastDat-1_Waves_ff_1960.nc" ∧
    coastdatFilename "ff" 3 ≠ claimFilename "ff" 3 := by
  refine ⟨by decide, by decide, by decide⟩

/-- Claim C4 as amended: for every valid region, every file the pipeline
attempts to open has the deterministic path
`<root><variable>/coastDat-1_Waves_<variable>_<3-digit year>.nc` built from a
selected variable name and a RELATIVE year inside the selected range (the
relative year is not converted back to an absolute calendar year). -/
theorem C4_opened_paths_pattern (p : coastdat_params_t) (b : NCBackend)
    (hv : paramsInvalid p = false) :
    ∀ f ∈ (read_coastdat (some p) b).opened, ∃ v ∈ varsOf p, ∃ y,
      normalizeYear p.firstYear ≤ y ∧ y ≤ normalizeYear p.lastYear ∧
      f = COASTDAT_PATH ++ v ++ "/coastDat-1_Waves_" ++ v ++ "_" ++ fmt3 y ++ ".nc" := by
  intro f hf
  obtain ⟨-, hvars, hfy, hly, hfl, -⟩ := paramsValid_parts hv
  have hyb : ∀ y ∈ yearsOf p, normalizeYear p.firstYear ≤ y ∧ y ≤ normalizeYear p.lastYear := by
    intro y hy
    rw [yearsOf, List.mem_range'_1] at hy
    omega
  rcases hm : measurePhase b ((varsOf p).headD "") (yearsOf p) with ⟨fs1, r⟩
  have hfs1 : ∀ g ∈ fs1, ∃ y ∈ yearsOf p, g = coastdatFilename ((varsOf p).headD "") y := by
    intro g hg
    exact measurePhase_opened b _ (yearsOf p) g (by rw [hm]; exact hg)
  cases r with
  | error e =>
    simp only [read_coastdat, hv, Bool.false_eq_true, if_false, hm] at hf
    obtain ⟨y, hy, rfl⟩ := hfs1 f (by simpa using hf)
    exact ⟨_, headD_mem hvars "", y, (hyb y hy).1, (hyb y hy).2, rfl⟩
  | ok total =>
    rcases hsY : streamYears p b (shape_x p) (shape_y p) (yearsOf p) 0 with ⟨fs2, r2⟩
    have hfs2 : ∀ g ∈ fs2, ∃ y ∈ yearsOf p, ∃ v ∈ varsOf p, g = coastdatFilename v y := by
      intro g hg
      exact streamYears_opened p b _ _ (yearsOf p) 0 g (by rw [hsY]; exact hg)
    cases r2 with
    | error e =>
      simp only [read_coastdat, hv, Bool.false_eq_true, if_false, hm, hsY] at hf
      rcases List.mem_append.1 (by simpa using hf) with h | h
      · obtain ⟨y, hy, rfl⟩ := hfs1 f h
        exact ⟨_, headD_mem hvars "", y, (hyb y hy).1, (hyb y hy).2, rfl⟩
      · obtain ⟨y, hy, v, hv2, rfl⟩ := hfs2 f h
        exact ⟨v, hv2, y, (hyb y hy).1, (hyb y hy).2, rfl⟩
    | ok W =>
      simp only [read_coastdat, hv, Bool.false_eq_true, if_false, hm, hsY] at hf
      rcases List.mem_append.1 (by simpa using hf) with h | h
      · obtain ⟨y, hy, rfl⟩ := hfs1 f h
        exact ⟨_, headD_mem hvars "", y, (hyb y hy).1, (hyb y hy).2, rfl⟩
      · obtain ⟨y, hy, v, hv2, rfl⟩ := hfs2 f h
        exact ⟨v, hv2, y, (hyb y hy).1, (hyb y hy).2, rfl⟩

/-- Witness for C4_opened_paths_pattern at the two-variable region and the
fully successful backend. -/
theorem C4_opened_paths_pattern_witness :
    paramsInvalid pTwo = false ∧
    ∀ f ∈ (read_coastdat (some pTwo) bOK).opened, ∃ v ∈ varsOf pTwo, ∃ y,
      normalizeYear pTwo.firstYear ≤ y ∧ y ≤ normalizeYear pTwo.lastYear ∧
      f = COASTDAT_PATH ++ v ++ "/coastDat-1_Waves_" ++ v ++ "_" ++ fmt3 y ++ ".nc" :=
  ⟨by decide, C4_opened_paths_pattern pTwo bOK (by decide)⟩

/-- Claim C5: with every variable of a year reporting the first variable's
extent (the code's unchecked precondition), the read succeeds, the total
time dimension is the sum over the selected years of the extent reported for
the first configured variable, and every value written lands at an absolute
time coordinate equal to the summed extents of all earlier selected years
plus a local time step below the year's extent — the same base offset for
every variable of that year. -/
theorem C5_time_offsets (p : coastdat_params_t) (b : NCBackend)
    (hb : backendOK b) (hv : paramsInvalid p = false)
    (hE : ∀ v ∈ varsOf p, ∀ y, b.dimLen (coastdatFilename v y) = ext0 p b y) :
    (read_coastdat (some p) b).status = 0 ∧
    (read_coastdat (some p) b).shape.t = ((yearsOf p).map (ext0 p b)).sum ∧
    ∀ w ∈ (read_coastdat (some p) b).writes, ∃ k tau,
      k < (yearsOf p).length ∧ tau < ext0 p b ((yearsOf p).getD k 0) ∧
      w.1 = (((yearsOf p).take k).map (ext0 p b)).sum + tau := by
  obtain ⟨-, hvars, -, -, -, -⟩ := paramsValid_parts hv
  obtain ⟨fs2, W, hs, hw⟩ :=
    streamYears_ok p hb (shape_x p) (shape_y p) hvars hE (yearsOf p) 0
  have hm := measurePhase_ok hb ((varsOf p).headD "") (yearsOf p)
  have hread : read_coastdat (some p) b =
      ⟨0, ⟨((yearsOf p).map (ext0 p b)).sum, shape_x p, shape_y p, 1, (varsOf p).length⟩,
       W, (yearsOf p).map (coastdatFilename ((varsOf p).headD "")) ++ fs2⟩ := by
    simp only [read_coastdat, hv, Bool.false_eq_true, if_false, hm, hs]
    rfl
  rw [hread]
  refine ⟨rfl, rfl, ?_⟩
  intro w hwmem
  obtain ⟨k, tau, h1, h2, h3⟩ := hw w hwmem
  exact ⟨k, tau, h1, h2, by simpa using h3⟩

/-- Witness for C5_time_offsets at the two-variable two-year region and the
fully successful backend (every extent 1). -/
theorem C5_time_offsets_witness :
    backendOK bOK ∧ paramsInvalid pTwo = false ∧
    ((read_coastdat (some pTwo) bOK).status = 0 ∧
     (read_coastdat (some pTwo) bOK).shape.t = ((yearsOf pTwo).map (ext0 pTwo bOK)).sum ∧
     ∀ w ∈ (read_coastdat (some pTwo) bOK).writes, ∃ k tau,
       k < (yearsOf pTwo).length ∧ tau < ext0 pTwo bOK ((yearsOf pTwo).getD k 0) ∧
       w.1 = (((yearsOf pTwo).take k).map (ext0 pTwo bOK)).sum + tau) := by
  have hb : backendOK bOK :=
    ⟨fun f => rfl, fun f v => rfl, fun f => rfl, fun f => rfl, fun f => rfl⟩
  exact ⟨hb, by decide, C5_time_offsets pTwo bOK hb (by decide) (fun v hv y => rfl)⟩

/-- Claim C6: a supplied year is treated as absolute exactly when it is at
least the dataset's first year (1958), becoming the 1-based relative index
year − 1958 + 1, and is passed through unchanged otherwise; in particular an
absolute year and its equivalent relative index normalize identically. -/
theorem C6_normalize_year (y r : Nat) (h1 : 1 ≤ r) (h2 : r < COASTDAT_FIRST_YEAR) :
    (COASTDAT_FIRST_YEAR ≤ y → normalizeYear y = y - COASTDAT_FIRST_YEAR + 1) ∧
    (y < COASTDAT_FIRST_YEAR → normalizeYear y = y) ∧
    normalizeYear (COASTDAT_FIRST_YEAR + r - 1) = r ∧
    normalizeYear r = r := by
  simp only [normalizeYear, COASTDAT_FIRST_YEAR] at h2 ⊢
  refine ⟨fun hy => ?_, fun hy => ?_, ?_, ?_⟩
  · rw [if_pos hy]
  · rw [if_neg (by omega)]
  · rw [if_pos (by omega)]
    omega
  · rw [if_neg (by omega)]

/-- Witness for C6_normalize_year: absolute 1960 normalizes to 3, the same
as supplying the relative index 3 directly. -/
theorem C6_normalize_year_witness :
    normalizeYear 1960 = 3 ∧ normalizeYear 3 = 3 := by
  have h := C6_normalize_year 1960 3 (by decide) (by decide)
  exact ⟨h.2.2.1, h.2.2.2⟩

/-- Claim C7: the read pipeline fails with the internal code 1 before any
open is attempted exactly when poolingSize < 1, or the variable list is
empty after splitting and lower-casing, or — after year conversion —
firstYear < 1, lastYear < 1, lastYear < firstYear, or the year span exceeds
the dataset's 50 years. -/
theorem C7_invalid_region_iff (p : coastdat_params_t) (b : NCBackend) :
    ((read_coastdat (some p) b).status = 1 ∧ (read_coastdat (some p) b).opened = []) ↔
      (p.spatialPoolingSize < 1 ∨ varsOf p = [] ∨
       normalizeYear p.firstYear < 1 ∨ normalizeYear p.lastYear < 1 ∨
       normalizeYear p.lastYear < normalizeYear p.firstYear ∨
       normalizeYear p.lastYear - normalizeYear p.firstYear + 1 > COASTDAT_NUM_YEARS) := by
  by_cases h : paramsInvalid p = true
  · constructor
    · intro _
      exact (paramsInvalid_true_iff p).1 h
    · intro _
      constructor <;> simp [read_coastdat, h]
  · have h' : paramsInvalid p = false := by simpa using h
    have hrhs := fun hc => h ((paramsInvalid_true_iff p).2 hc)
    constructor
    · rintro ⟨h1, h2⟩
      exfalso
      obtain ⟨y, ys, hys⟩ : ∃ y ys, yearsOf p = y :: ys := by
        cases hys : yearsOf p with
        | nil =>
          exfalso
          have hl := congrArg List.length hys
          simp [yearsOf, List.length_range'] at hl
        | cons a as => exact ⟨a, as, rfl⟩
      rcases hm : measurePhase b ((varsOf p).headD "") (yearsOf p) with ⟨fs1, r⟩
      have hne : fs1 ≠ [] := by
        have := measurePhase_fst_ne_nil b ((varsOf p).headD "") y ys
        rw [← hys, hm] at this
        exact this
      cases r with
      | error e =>
        simp only [read_coastdat, h', Bool.false_eq_true, if_false, hm] at h2
        exact hne (by simpa using h2)
      | ok total =>
        rcases hsY : streamYears p b (shape_x p) (shape_y p) (yearsOf p) 0 with ⟨fs2, r2⟩
        cases r2 with
        | error e =>
          simp only [read_coastdat, h', Bool.false_eq_true, if_false, hm, hsY] at h2
          simp only [List.append_eq_nil] at h2
          exact hne h2.1
        | ok W =>
          simp only [read_coastdat, h', Bool.false_eq_true, if_false, hm, hsY] at h2
          simp only [List.append_eq_nil] at h2
          exact hne h2.1
    · intro hc
      exact absurd hc hrhs

/-- Claim C8 counterexample: with nc_open failing with -5, the read pipeline
reports -5, but `maxdiv_coastdat_context_window_size` returns 0 — the read
error is not surfaced to its caller. -/
theorem C8_context_window_swallows_error :
    (read_coastdat (some pOne) bFail).status = -5 ∧
    (maxdiv_coastdat_context_window_size (some pOne) bFail 7).ret = 0 ∧
    ((0 : Int) ≠ -5) := by
  refine ⟨by decide, by decide, by decide⟩

/-- Claim C8 as amended: on any read failure, `maxdiv_coastdat` returns the
read pipeline's status unchanged without invoking the analysis, while
`maxdiv_coastdat_context_window_size` returns 0 (the read error is swallowed,
not propagated) without invoking the sizing function; neither entry point
hands a partial tensor onward. -/
theorem C8_error_propagation (dp : Option coastdat_params_t) (b : NCBackend)
    (algoRet sizeRet : Int) (h : (read_coastdat dp b).status ≠ 0) :
    (maxdiv_coastdat false dp b algoRet).ret = (read_coastdat dp b).status ∧
    (maxdiv_coastdat false dp b algoRet).invoked = false ∧
    (maxdiv_coastdat_context_window_size dp b sizeRet).ret = 0 ∧
    (maxdiv_coastdat_context_window_size dp b sizeRet).invoked = false := by
  simp [maxdiv_coastdat, maxdiv_coastdat_context_window_size, h]

/-- Witness for C8_error_propagation at the one-cell region and the backend
whose opens fail with -5. -/
theorem C8_error_propagation_witness :
    (read_coastdat (some pOne) bFail).status ≠ 0 ∧
    ((maxdiv_coastdat false (some pOne) bFail 3).ret = (read_coastdat (some pOne) bFail).status ∧
     (maxdiv_coastdat false (some pOne) bFail 3).invoked = false ∧
     (maxdiv_coastdat_context_window_size (some pOne) bFail 4).ret = 0 ∧
     (maxdiv_coastdat_context_window_size (some pOne) bFail 4).invoked = false) :=
  ⟨by decide, C8_error_propagation (some pOne) bFail 3 4 (by decide)⟩

/-- Claim C9: given a non-null structure, the default-parameter initializer
sets exactly the fixed preset: variables "ff,hs,mp", relative years 1..50,
latitude indices 53..100, longitude indices 30..98, pooling size 4. -/
theorem C9_default_params :
    (∀ q, maxdiv_coastdat_default_params (some q) = some coastdatDefault) ∧
    coastdatDefault.varList = "ff,hs,mp" ∧
    coastdatDefault.firstYear = 1 ∧ coastdatDefault.lastYear = 50 ∧
    coastdatDefault.firstLat = 53 ∧ coastdatDefault.lastLat = 100 ∧
    coastdatDefault.firstLon = 30 ∧ coastdatDefault.lastLon = 98 ∧
    coastdatDefault.spatialPoolingSize = 4 :=
  ⟨fun q => rfl, rfl, rfl, rfl, rfl, rfl, rfl, rfl, rfl⟩

/-- Claim C10: null parameter pointers are tolerated without I/O or writes:
the read pipeline returns 1 on a null data_params with the tensor untouched
and nothing opened; `maxdiv_coastdat` returns 1 on a null params without
reading or analyzing; the default-parameter initializer writes nothing
through a null pointer. -/
theorem C10_null_tolerance :
    (∀ b, read_coastdat none b = ⟨1, zeroShape, [], []⟩) ∧
    (∀ dp b algoRet, maxdiv_coastdat true dp b algoRet = ⟨1, false, []⟩) ∧
    maxdiv_coastdat_default_params none = none :=
  ⟨fun b => rfl, fun dp b algoRet => rfl, rfl⟩
